import Mathlib

/-!
Verification of the concurrent fetch-and-reconcile engine of
`download_ignite2025_slides.py` (Microsoft-Ignite-PPTX-Downloader).

The Python source is shallowly embedded below:
* `sanitize_filename` is translated character by character
  (`str.strip`, `str.replace(" ", "_")`, `re.sub("[^A-Za-z0-9_.-]", "", _)`);
* the filesystem is an explicit state (`Fs`): a set of directories and an
  association of file paths to byte contents;
* network and OS effects that the Python code observes (the HTTP response,
  exceptions raised by `mkdir` / `open` / the chunk-write loop / `unlink`)
  are supplied by explicit oracles (`NetWorld`, the `unlinkErr` argument);
* Python exceptions are modelled with `Except String`: a function that the
  source wraps in `try/except` is total (it returns the caught result), a
  function that may propagate an exception returns `Except.error msg`;
* the dispatcher loop of `main` (draining `as_completed`, incrementing the
  counter dictionary under the lock, printing progress lines) is
  `resultLoop`, folded over the completion-order list of results.
-/

/-! ## sanitize_filename -/

/-- Python `str.isspace`, the character class stripped by `str.strip()`:
whitespace code points (U+0009–U+000D, U+001C–U+001F, space, NEL, NBSP,
Ogham space, U+2000–U+200A, line/paragraph separator, narrow NBSP,
medium mathematical space, ideographic space). -/
def pyIsSpace (c : Char) : Bool :=
  let n := c.toNat
  (9 ≤ n && n ≤ 13) || (28 ≤ n && n ≤ 31) || n == 32 || n == 133 ||
    n == 160 || n == 5760 || (8192 ≤ n && n ≤ 8202) || n == 8232 ||
    n == 8233 || n == 8239 || n == 8287 || n == 12288

/-- The allow-list of the regex `[A-Za-z0-9_.-]` in `sanitize_filename`
(`re.sub` deletes every character outside it). -/
def allowedChar (c : Char) : Bool :=
  let n := c.toNat
  (48 ≤ n && n ≤ 57) || (65 ≤ n && n ≤ 90) || (97 ≤ n && n ≤ 122) ||
    n == 95 || n == 46 || n == 45

/-- Python `str.strip()` on the character list: drop `pyIsSpace` characters
from both ends. -/
def pyStrip (l : List Char) : List Char :=
  ((l.dropWhile pyIsSpace).reverse.dropWhile pyIsSpace).reverse

/-- `value.replace(" ", "_")` acts on single characters. -/
def replaceSpace (c : Char) : Char :=
  if c = ' ' then '_' else c

def sanitizeList (l : List Char) : List Char :=
  ((pyStrip l).map replaceSpace).filter allowedChar

/-- `sanitize_filename` (source lines 23–26):
`value.strip().replace(" ", "_")` then `re.sub(r"[^A-Za-z0-9_.-]", "", value)`. -/
def sanitize_filename (s : String) : String :=
  ⟨sanitizeList s.data⟩

/-! ## Filesystem state -/

/-- A file's content: a list of bytes.  Byte values are opaque to the logic. -/
abbrev Bytes := List Nat

/-- The filesystem visible to the script: the set of existing directories and
an association of file paths (rendered as strings) to contents.  Paths are
unique keys; `setFile`/`unlink` maintain this by filtering the old binding. -/
structure Fs where
  dirs : List String
  files : List (String × Bytes)
deriving DecidableEq

def Fs.lookupFile (fs : Fs) (p : String) : Option Bytes :=
  (fs.files.find? (fun e => e.1 == p)).map (fun e => e.2)

/-- `Path.exists()` for the destination (a plain file in this program). -/
def Fs.existsFile (fs : Fs) (p : String) : Bool :=
  (fs.lookupFile p).isSome

/-- `dest.stat().st_size`, defined on existing files. -/
def Fs.sizeOf (fs : Fs) (p : String) : Nat :=
  ((fs.lookupFile p).getD []).length

/-- `open(dest_path, "wb")` followed by writes: (re)binds the path. -/
def Fs.setFile (fs : Fs) (p : String) (content : Bytes) : Fs :=
  { fs with files := (p, content) :: fs.files.filter (fun e => !(e.1 == p)) }

/-- `dest.unlink()` when it succeeds: removes the binding. -/
def Fs.unlink (fs : Fs) (p : String) : Fs :=
  { fs with files := fs.files.filter (fun e => !(e.1 == p)) }

/-- `parent.mkdir(parents=True, exist_ok=True)`: idempotent directory
creation (the single-component parent used by this program). -/
def Fs.mkdirP (fs : Fs) (d : String) : Fs :=
  if d ∈ fs.dirs then fs else { fs with dirs := d :: fs.dirs }

/-- `Path.parent` of a path string: everything before the last `/`. -/
def parentOf (p : String) : String :=
  ⟨((p.data.reverse.dropWhile (fun c => c ≠ '/')).drop 1).reverse⟩

/-! ## Network / OS effect oracles -/

/-- Outcome of `requests.get(url, ...)`: either a response with a status code
and the streamed body (`iter_content` chunks), or a raised transport
exception with its description (`str(e)`). -/
inductive GetOutcome where
  | resp (status : Nat) (chunks : List Bytes)
  | raise (msg : String)
deriving DecidableEq

/-- The effects one `download_file` call observes: the HTTP GET outcome and
the exceptions (if any) raised by `mkdir`, by `open`, and by the
read/write chunk loop.  `writeErr = some (i, msg)` means the loop raises
`msg` when handling the `i`-th non-empty chunk, after the earlier chunks
were written. -/
structure NetWorld where
  get : GetOutcome
  mkdirErr : Option String
  openErr : Option String
  writeErr : Option (Nat × String)
deriving DecidableEq

/-! ## download_file (source lines 34–53) -/

/-- `download_file(url, dest_path, session_code, chunk_size)`.
The whole body is wrapped in `try/except Exception` returning
`(False, str(e))`, so the embedding is total: every oracle-raised
exception is turned into a `(false, msg)` result.  Order of operations is
the source's: status check, then `mkdir`, then `open`, then the chunk
loop (`if chunk:` skips empty chunks). -/
def download_file (w : NetWorld) (fs : Fs) (_url : String) (dest_path : String)
    (session_code : String) : (Bool × String) × Fs :=
  match w.get with
  | .raise msg => ((false, msg), fs)
  | .resp status chunks =>
    if status ≠ 200 then ((false, "HTTP " ++ toString status), fs)
    else
      match w.mkdirErr with
      | some msg => ((false, msg), fs)
      | none =>
        let fs1 := fs.mkdirP (parentOf dest_path)
        match w.openErr with
        | some msg => ((false, msg), fs1)
        | none =>
          let data := chunks.filter (fun c => !c.isEmpty)
          match w.writeErr with
          | some (i, msg) => ((false, msg), fs1.setFile dest_path ((data.take i).flatten))
          | none => ((true, session_code), fs1.setFile dest_path data.flatten)

/-! ## download_session (source lines 55–81) -/

/-- A catalogue record as `download_session` reads it: `session.get(...)`
with the source's defaults.  Absent keys are `none`. -/
structure Session where
  slideDeck : Option String
  sessionCode : Option String
  title : Option String
deriving DecidableEq

def DEST_DIR : String := "ignite_2025_slides"

/-- `DEST_DIR / f"{session_code}_{title}.pptx"` after sanitization. -/
def destOf (sess : Session) : String :=
  DEST_DIR ++ "/" ++ sanitize_filename (sess.sessionCode.getD "") ++ "_" ++
    sanitize_filename (sess.title.getD "untitled") ++ ".pptx"

/-- `download_session(session)`, instrumented: the second component records
whether `download_file` was invoked (used to state the no-fetch claims).
`unlinkErr` is the oracle for the one uncaught effect in the body: if
`dest.unlink()` raises, the exception propagates out (`Except.error`).
`session.get("slideDeck") or ""` collapses `None` and `""` to `""`. -/
def download_sessionT (sess : Session) (fs : Fs) (w : NetWorld)
    (unlinkErr : Option String) :
    Except String ((String × Nat) × Fs) × Bool :=
  let slide_url := sess.slideDeck.getD ""
  if slide_url = "" then (.ok (("no_deck", 0), fs), false)
  else
    let session_code := sanitize_filename (sess.sessionCode.getD "")
    let dest := destOf sess
    if fs.existsFile dest && fs.sizeOf dest > 0 then
      (.ok (("existing", 0), fs), false)
    else
      match download_file w fs slide_url dest session_code with
      | ((success, _result), fs1) =>
        if success then (.ok (("downloaded", 1), fs1), true)
        else
          if fs1.existsFile dest then
            match unlinkErr with
            | some msg => (.error msg, true)
            | none => (.ok (("failed", 0), fs1.unlink dest), true)
          else (.ok (("failed", 0), fs1), true)

/-- `download_session` as the dispatcher consumes it. -/
def download_session (sess : Session) (fs : Fs) (w : NetWorld)
    (unlinkErr : Option String) : Except String ((String × Nat) × Fs) :=
  (download_sessionT sess fs w unlinkErr).1

/-! ## The dispatcher loop of main (source lines 90–106) -/

/-- The counter dictionary
`{"downloaded": 0, "no_deck": 0, "existing": 0, "failed": 0}`. -/
structure Counters where
  downloaded : Nat
  no_deck : Nat
  existing : Nat
  failed : Nat
deriving DecidableEq

def Counters.zero : Counters := ⟨0, 0, 0, 0⟩

/-- `sum(counters.values())`. -/
def Counters.total (c : Counters) : Nat :=
  c.downloaded + c.no_deck + c.existing + c.failed

/-- `counters[status] += 1`: a key outside the dictionary raises `KeyError`
(`none`). -/
def Counters.incr (c : Counters) (status : String) : Option Counters :=
  if status = "downloaded" then some { c with downloaded := c.downloaded + 1 }
  else if status = "no_deck" then some { c with no_deck := c.no_deck + 1 }
  else if status = "existing" then some { c with existing := c.existing + 1 }
  else if status = "failed" then some { c with failed := c.failed + 1 }
  else none

/-- The `for future in as_completed(futures):` loop of `main`, folded over
the completion-order list of per-item results.  `future.result()`
re-raises an exception stored in the future, aborting the loop
(`Except.error`); otherwise the status counter is incremented and — only
for `"downloaded"` — a progress pair
`(sum(counters.values()), len(sessions))` is emitted.  The returned trace
is the list of progress pairs in emission order. -/
def resultLoop (rs : List (Except String (String × Nat))) (c : Counters)
    (total : Nat) : Except String (Counters × List (Nat × Nat)) :=
  match rs with
  | [] => .ok (c, [])
  | .error e :: _ => .error e
  | .ok (status, _count) :: rest =>
    match c.incr status with
    | none => .error ("KeyError: " ++ status)
    | some c1 =>
      match resultLoop rest c1 total with
      | .error e => .error e
      | .ok (cf, tr) =>
        .ok (cf, (if status = "downloaded" then [(c1.total, total)] else []) ++ tr)

/-- The progress pairs `resultLoop` emits when processing starts after `k`
items have already been counted: the `i`-th result (0-based, position
`k + i` overall) contributes `(k + i + 1, total)` exactly when its status
is `"downloaded"`. -/
def expectedTrace (rs : List (String × Nat)) (k total : Nat) : List (Nat × Nat) :=
  match rs with
  | [] => []
  | (status, _) :: rest =>
    (if status = "downloaded" then [(k + 1, total)] else []) ++
      expectedTrace rest (k + 1) total

/-! ## Lemmas about sanitize_filename -/

theorem allowedChar_not_space {c : Char} (h : allowedChar c = true) :
    pyIsSpace c = false := by
  simp only [allowedChar, Bool.or_eq_true, Bool.and_eq_true, decide_eq_true_eq,
    beq_iff_eq] at h
  simp only [pyIsSpace, Bool.or_eq_false_iff, Bool.and_eq_false_iff,
    decide_eq_false_iff_not, beq_eq_false_iff_ne, ne_eq]
  omega

theorem allowedChar_ne_space {c : Char} (h : allowedChar c = true) : c ≠ ' ' := by
  intro hc
  subst hc
  exact absurd h (by decide)

theorem dropWhile_eq_self_of_not {α : Type} (p : α → Bool) (l : List α)
    (h : ∀ c ∈ l, p c = false) : l.dropWhile p = l := by
  cases l with
  | nil => rfl
  | cons a t => simp [List.dropWhile_cons, h a (by simp)]

theorem pyStrip_eq_self {l : List Char} (h : ∀ c ∈ l, pyIsSpace c = false) :
    pyStrip l = l := by
  unfold pyStrip
  rw [dropWhile_eq_self_of_not _ _ h,
    dropWhile_eq_self_of_not _ _ (fun c hc => h c (List.mem_reverse.mp hc)),
    List.reverse_reverse]

theorem map_eq_self_of_fixed {α : Type} (f : α → α) (l : List α)
    (h : ∀ c ∈ l, f c = c) : l.map f = l := by
  induction l with
  | nil => rfl
  | cons a t ih =>
    simp only [List.map_cons, h a (by simp)]
    rw [ih fun c hc => h c (by simp [hc])]

theorem mem_sanitizeList_allowed {c : Char} {l : List Char}
    (h : c ∈ sanitizeList l) : allowedChar c = true :=
  (List.mem_filter.mp h).2

theorem sanitizeList_fixed {l : List Char} (h : ∀ c ∈ l, allowedChar c = true) :
    sanitizeList l = l := by
  unfold sanitizeList
  rw [pyStrip_eq_self fun c hc => allowedChar_not_space (h c hc),
    map_eq_self_of_fixed _ _ (fun c hc => by
      simp [replaceSpace, allowedChar_ne_space (h c hc)]),
    List.filter_eq_self.mpr h]

theorem sanitizeList_idem (l : List Char) :
    sanitizeList (sanitizeList l) = sanitizeList l :=
  sanitizeList_fixed fun _ hc => mem_sanitizeList_allowed hc

theorem sanitize_filename_data (s : String) :
    (sanitize_filename s).data = sanitizeList s.data := rfl

theorem sanitizeList_space_cons (l : List Char) :
    sanitizeList (' ' :: l) = sanitizeList l := by
  unfold sanitizeList pyStrip
  rw [List.dropWhile_cons_of_pos (by decide)]

theorem sanitizeList_append_space (l : List Char) :
    sanitizeList (l ++ [' ']) = sanitizeList l := by
  unfold sanitizeList pyStrip
  rw [List.dropWhile_append]
  by_cases hemp : (l.dropWhile pyIsSpace).isEmpty
  · rw [if_pos hemp]
    rw [List.isEmpty_iff.mp hemp]
    rfl
  · rw [if_neg hemp, List.reverse_append]
    simp only [List.reverse_cons, List.reverse_nil, List.nil_append,
      List.singleton_append]
    rw [List.dropWhile_cons_of_pos (by decide)]

/-! ## Fs lemmas -/

theorem lookupFile_unlink (fs : Fs) (p : String) :
    (fs.unlink p).lookupFile p = none := by
  simp only [Fs.unlink, Fs.lookupFile]
  rw [List.find?_eq_none.mpr]
  · rfl
  · intro e he
    have := (List.mem_filter.mp he).2
    simp only [Bool.not_eq_eq_eq_not, Bool.not_true] at this
    simp [this]

theorem flatten_filter_nonempty (l : List Bytes) :
    (l.filter (fun c => !c.isEmpty)).flatten = l.flatten := by
  induction l with
  | nil => rfl
  | cons a t ih =>
    by_cases ha : a.isEmpty
    · rw [List.isEmpty_iff.mp ha]
      simpa using ih
    · simp only [List.filter_cons, ha, Bool.not_false, if_pos]
      simp [ih]

/-! ## Claim theorems -/

/-- C4 counterexample.  `sanitize_filename` does not replace every internal
whitespace character with the separator: `str.replace(" ", "_")` only
rewrites the space character, so an internal tab is deleted by the
allow-list filter instead of becoming an underscore.  On `"a\tb"` the
claim predicts `"a_b"`, the code produces `"ab"`. -/
theorem sanitize_tab_not_separator :
    sanitize_filename "a\tb" = "ab" ∧ sanitize_filename "a\tb" ≠ "a_b" := by
  decide

/-- C4 (amended): `sanitize_filename` strips leading/trailing whitespace,
replaces each internal space (U+0020) with an underscore, and removes
every character outside `[A-Za-z0-9_.-]` — non-space internal whitespace
is removed rather than replaced.  The output contains only allow-listed
characters, and `sanitize("Intro to AI: Part 1!") = "Intro_to_AI_Part_1"`. -/
theorem sanitize_filename_spec :
    (∀ (s : String), ∀ c ∈ (sanitize_filename s).data, allowedChar c = true)
    ∧ sanitize_filename "Intro to AI: Part 1!" = "Intro_to_AI_Part_1"
    ∧ (∀ s : String, sanitize_filename (" " ++ s) = sanitize_filename s)
    ∧ (∀ s : String, sanitize_filename (s ++ " ") = sanitize_filename s)
    ∧ sanitize_filename "a b" = "a_b"
    ∧ sanitize_filename "a\tb" = "ab" := by
  refine ⟨?_, by decide, ?_, ?_, by decide, by decide⟩
  · intro s c hc
    exact mem_sanitizeList_allowed (by rwa [sanitize_filename_data] at hc)
  · intro s
    show (⟨sanitizeList (" " ++ s).data⟩ : String) = ⟨sanitizeList s.data⟩
    rw [String.data_append]
    exact congrArg String.mk (sanitizeList_space_cons s.data)
  · intro s
    show (⟨sanitizeList (s ++ " ").data⟩ : String) = ⟨sanitizeList s.data⟩
    rw [String.data_append]
    exact congrArg String.mk (sanitizeList_append_space s.data)

/-- C4 witness: the allow-list conjunct instantiated on a concrete string
and character. -/
theorem sanitize_filename_spec_witness : allowedChar 'I' = true :=
  sanitize_filename_spec.1 "Intro to AI: Part 1!" 'I' (by decide)

/-- C9: `sanitize_filename` is idempotent — its output has no whitespace and
only allow-listed characters, so stripping, space replacement and the
allow-list filter all fix it. -/
theorem sanitize_filename_idem (s : String) :
    sanitize_filename (sanitize_filename s) = sanitize_filename s := by
  show (⟨sanitizeList (sanitize_filename s).data⟩ : String) = _
  rw [sanitize_filename_data, sanitizeList_idem]
  rfl

/-- C6: an item with an absent or empty asset URL resolves to `no_deck`
immediately: for every filesystem, every network oracle and every unlink
oracle the result is `("no_deck", 0)`, the filesystem is returned
unchanged, and `download_file` is never invoked (trace flag `false`). -/
theorem download_session_no_asset (sess : Session) (fs : Fs) (w : NetWorld)
    (u : Option String) (h : sess.slideDeck.getD "" = "") :
    download_sessionT sess fs w u = (.ok (("no_deck", 0), fs), false) := by
  simp [download_sessionT, h]

/-- C6 witness: a session without a `slideDeck` key. -/
theorem download_session_no_asset_witness :
    download_sessionT ⟨none, some "BRK001", some "T"⟩ ⟨[], []⟩
      ⟨.raise "unreachable", none, none, none⟩ none =
      (.ok (("no_deck", 0), ⟨[], []⟩), false) :=
  download_session_no_asset _ _ _ _ rfl

/-- C1: for an item carrying an asset URL, if the destination file exists
with non-zero size the resolver returns `("existing", 0)` with the
filesystem untouched and without invoking the fetch (for every network
and unlink oracle); if the destination exists with size exactly zero, the
fetch is attempted (trace flag `true`). -/
theorem download_session_existing_or_refetch (sess : Session) (fs : Fs)
    (w : NetWorld) (u : Option String) (content : Bytes)
    (hurl : sess.slideDeck.getD "" ≠ "")
    (hdest : fs.lookupFile (destOf sess) = some content) :
    (0 < content.length →
      download_sessionT sess fs w u = (.ok (("existing", 0), fs), false))
    ∧ (content.length = 0 → (download_sessionT sess fs w u).2 = true) := by
  have hex : fs.existsFile (destOf sess) = true := by
    simp [Fs.existsFile, hdest]
  have hsz : fs.sizeOf (destOf sess) = content.length := by
    simp [Fs.sizeOf, hdest]
  constructor
  · intro hpos
    simp only [download_sessionT, if_neg hurl]
    rw [if_pos (by simp [hex, hsz, hpos])]
  · intro hzero
    simp only [download_sessionT, if_neg hurl]
    rw [if_neg (by simp [hsz, hzero])]
    rcases hdf : download_file w fs (sess.slideDeck.getD "") (destOf sess)
        (sanitize_filename (sess.sessionCode.getD "")) with ⟨⟨succ, res⟩, fs1⟩
    simp only [hdf]
    cases succ
    · by_cases he : fs1.existsFile (destOf sess) = true
      · cases u <;> simp [he]
      · simp [he]
    · rfl

/-- C1 witness: a non-empty destination file short-circuits to `existing`
for a network oracle that would fail, and a zero-byte destination file
leads to a fetch attempt. -/
theorem download_session_existing_or_refetch_witness :
    download_sessionT ⟨some "u", some "A", some "B"⟩
        ⟨[], [("ignite_2025_slides/A_B.pptx", [7])]⟩
        ⟨.raise "t", none, none, none⟩ none =
      (.ok (("existing", 0), ⟨[], [("ignite_2025_slides/A_B.pptx", [7])]⟩), false)
    ∧ (download_sessionT ⟨some "u", some "A", some "B"⟩
        ⟨[], [("ignite_2025_slides/A_B.pptx", [])]⟩
        ⟨.raise "t", none, none, none⟩ none).2 = true :=
  ⟨(download_session_existing_or_refetch _ _ _ _ [7] (by decide) (by decide)).1
      (by decide),
    (download_session_existing_or_refetch _ _ _ _ [] (by decide) (by decide)).2
      rfl⟩

/-- C5: the `download_file` result taxonomy.  A non-200 status yields the
failure reason `"HTTP <status>"`; a transport exception on the GET, and
exceptions from `mkdir`, `open` or the chunk loop, each yield a failure
carrying that exception's description; the call succeeds exactly when the
status is 200 and no exception occurs, and then the destination holds the
concatenation of the full chunk stream. -/
theorem download_file_result_spec :
    (∀ (fs : Fs) (url dest code : String) (st : Nat) (chunks : List Bytes)
        (mE oE : Option String) (wE : Option (Nat × String)), st ≠ 200 →
      download_file ⟨.resp st chunks, mE, oE, wE⟩ fs url dest code =
        ((false, "HTTP " ++ toString st), fs))
    ∧ (∀ (fs : Fs) (url dest code msg : String) (mE oE : Option String)
        (wE : Option (Nat × String)),
      download_file ⟨.raise msg, mE, oE, wE⟩ fs url dest code =
        ((false, msg), fs))
    ∧ (∀ (fs : Fs) (url dest code msg : String) (chunks : List Bytes)
        (oE : Option String) (wE : Option (Nat × String)),
      download_file ⟨.resp 200 chunks, some msg, oE, wE⟩ fs url dest code =
        ((false, msg), fs))
    ∧ (∀ (fs : Fs) (url dest code msg : String) (chunks : List Bytes)
        (wE : Option (Nat × String)),
      download_file ⟨.resp 200 chunks, none, some msg, wE⟩ fs url dest code =
        ((false, msg), fs.mkdirP (parentOf dest)))
    ∧ (∀ (fs : Fs) (url dest code msg : String) (chunks : List Bytes) (i : Nat),
      (download_file ⟨.resp 200 chunks, none, none, some (i, msg)⟩ fs url dest
        code).1 = (false, msg))
    ∧ (∀ (w : NetWorld) (fs : Fs) (url dest code : String),
      (download_file w fs url dest code).1.1 = true ↔
        ∃ chunks, w = ⟨.resp 200 chunks, none, none, none⟩)
    ∧ (∀ (fs : Fs) (url dest code : String) (chunks : List Bytes),
      download_file ⟨.resp 200 chunks, none, none, none⟩ fs url dest code =
        ((true, code),
          (fs.mkdirP (parentOf dest)).setFile dest chunks.flatten)) := by
  refine ⟨?_, ?_, ?_, ?_, ?_, ?_, ?_⟩
  · intro fs url dest code st chunks mE oE wE hst
    simp [download_file, hst]
  · intro fs url dest code msg mE oE wE
    rfl
  · intro fs url dest code msg chunks oE wE
    simp [download_file]
  · intro fs url dest code msg chunks wE
    simp [download_file]
  · intro fs url dest code msg chunks i
    simp [download_file]
  · intro w fs url dest code
    constructor
    · intro h
      rcases w with ⟨g, mE, oE, wE⟩
      rcases g with ⟨st, chunks⟩ | msg
      · by_cases hst : st = 200
        · subst hst
          rcases mE with _ | m
          · rcases oE with _ | m
            · rcases wE with _ | ⟨i, m⟩
              · exact ⟨chunks, rfl⟩
              · simp [download_file] at h
            · simp [download_file] at h
          · simp [download_file] at h
        · simp [download_file, hst] at h
      · simp [download_file] at h
    · rintro ⟨chunks, rfl⟩
      simp [download_file]
  · intro fs url dest code chunks
    simp only [download_file]
    rw [if_neg (by simp)]
    rw [flatten_filter_nonempty]

/-- C5 witness: each clause of the taxonomy instantiated on concrete
inputs (status 403, a raised `Timeout`, failing `mkdir`/`open`/write, and
a clean 200 download of two chunks). -/
theorem download_file_result_spec_witness :
    download_file ⟨.resp 403 [], none, none, none⟩ ⟨[], []⟩ "u"
        "ignite_2025_slides/A_B.pptx" "A" = ((false, "HTTP 403"), ⟨[], []⟩)
    ∧ download_file ⟨.raise "Timeout", none, none, none⟩ ⟨[], []⟩ "u"
        "ignite_2025_slides/A_B.pptx" "A" = ((false, "Timeout"), ⟨[], []⟩)
    ∧ (download_file ⟨.resp 200 [[1]], none, none, some (0, "No space")⟩
        ⟨[], []⟩ "u" "ignite_2025_slides/A_B.pptx" "A").1 = (false, "No space")
    ∧ ((download_file ⟨.resp 200 [[1], [2]], none, none, none⟩ ⟨[], []⟩ "u"
        "ignite_2025_slides/A_B.pptx" "A").1.1 = true ↔
        ∃ chunks, (⟨.resp 200 [[1], [2]], none, none, none⟩ : NetWorld) =
          ⟨.resp 200 chunks, none, none, none⟩)
    ∧ download_file ⟨.resp 200 [[1], [2]], none, none, none⟩ ⟨[], []⟩ "u"
        "ignite_2025_slides/A_B.pptx" "A" =
        ((true, "A"), ⟨["ignite_2025_slides"],
          [("ignite_2025_slides/A_B.pptx", [1, 2])]⟩) := by
  refine ⟨download_file_result_spec.1 _ _ _ _ 403 [] none none none (by decide),
    download_file_result_spec.2.1 _ _ _ _ _ none none none,
    download_file_result_spec.2.2.2.2.1 _ _ _ _ "No space" [[1]] 0,
    download_file_result_spec.2.2.2.2.2.1 _ _ _ _ _,
    ?_⟩
  have h := download_file_result_spec.2.2.2.2.2.2 (⟨[], []⟩ : Fs) "u"
    "ignite_2025_slides/A_B.pptx" "A" [[1], [2]]
  rw [h]
  rfl

/-- C10: on a non-200 HTTP status `download_file` returns before creating
the destination's parent directories or opening the destination file: the
filesystem state it returns is exactly its input, so in particular the
entry at the destination path is unchanged. -/
theorem download_file_non200_frame (fs : Fs) (url dest code : String)
    (st : Nat) (chunks : List Bytes) (mE oE : Option String)
    (wE : Option (Nat × String)) (hst : st ≠ 200) :
    (download_file ⟨.resp st chunks, mE, oE, wE⟩ fs url dest code).2 = fs
    ∧ (download_file ⟨.resp st chunks, mE, oE, wE⟩ fs url dest
        code).2.lookupFile dest = fs.lookupFile dest
    ∧ (download_file ⟨.resp st chunks, mE, oE, wE⟩ fs url dest code).2.dirs =
        fs.dirs := by
  simp [download_file, hst]

/-- C10 witness: a 404 response leaves an empty filesystem empty. -/
theorem download_file_non200_frame_witness :
    (download_file ⟨.resp 404 [[1]], none, none, none⟩ ⟨[], []⟩ "u"
      "ignite_2025_slides/A_B.pptx" "A").2 = (⟨[], []⟩ : Fs) :=
  (download_file_non200_frame ⟨[], []⟩ "u" "ignite_2025_slides/A_B.pptx" "A"
    404 [[1]] none none none (by decide)).1

/-! Scenario lemmas: `download_sessionT` computed in each branch of the
source's control flow. -/

theorem dsT_no_url (sess : Session) (fs : Fs) (w : NetWorld)
    (u : Option String) (h : sess.slideDeck.getD "" = "") :
    download_sessionT sess fs w u = (.ok (("no_deck", 0), fs), false) := by
  simp [download_sessionT, h]

theorem dsT_downloaded (sess : Session) (fs fs1 : Fs) (w : NetWorld)
    (u : Option String) (res : String)
    (h1 : ¬sess.slideDeck.getD "" = "")
    (h2 : (fs.existsFile (destOf sess) && decide (fs.sizeOf (destOf sess) > 0)) = false)
    (hdf : download_file w fs (sess.slideDeck.getD "") (destOf sess)
      (sanitize_filename (sess.sessionCode.getD "")) = ((true, res), fs1)) :
    download_sessionT sess fs w u = (.ok (("downloaded", 1), fs1), true) := by
  simp only [download_sessionT, hdf]
  rw [if_neg h1, if_neg (by simp [h2])]
  simp

theorem dsT_failed_clean (sess : Session) (fs fs1 : Fs) (w : NetWorld)
    (res : String)
    (h1 : ¬sess.slideDeck.getD "" = "")
    (h2 : (fs.existsFile (destOf sess) && decide (fs.sizeOf (destOf sess) > 0)) = false)
    (hdf : download_file w fs (sess.slideDeck.getD "") (destOf sess)
      (sanitize_filename (sess.sessionCode.getD "")) = ((false, res), fs1))
    (hex : fs1.existsFile (destOf sess) = true) :
    download_sessionT sess fs w none =
      (.ok (("failed", 0), fs1.unlink (destOf sess)), true) := by
  simp only [download_sessionT, hdf]
  rw [if_neg h1, if_neg (by simp [h2])]
  simp [hex]

theorem dsT_failed_unlink_raises (sess : Session) (fs fs1 : Fs) (w : NetWorld)
    (res msg : String)
    (h1 : ¬sess.slideDeck.getD "" = "")
    (h2 : (fs.existsFile (destOf sess) && decide (fs.sizeOf (destOf sess) > 0)) = false)
    (hdf : download_file w fs (sess.slideDeck.getD "") (destOf sess)
      (sanitize_filename (sess.sessionCode.getD "")) = ((false, res), fs1))
    (hex : fs1.existsFile (destOf sess) = true) :
    download_sessionT sess fs w (some msg) = (.error msg, true) := by
  simp only [download_sessionT, hdf]
  rw [if_neg h1, if_neg (by simp [h2])]
  simp [hex]

theorem dsT_failed_absent (sess : Session) (fs fs1 : Fs) (w : NetWorld)
    (u : Option String) (res : String)
    (h1 : ¬sess.slideDeck.getD "" = "")
    (h2 : (fs.existsFile (destOf sess) && decide (fs.sizeOf (destOf sess) > 0)) = false)
    (hdf : download_file w fs (sess.slideDeck.getD "") (destOf sess)
      (sanitize_filename (sess.sessionCode.getD "")) = ((false, res), fs1))
    (hex : fs1.existsFile (destOf sess) = false) :
    download_sessionT sess fs w u = (.ok (("failed", 0), fs1), true) := by
  simp only [download_sessionT, hdf]
  rw [if_neg h1, if_neg (by simp [h2])]
  simp [hex]

theorem dsT_existing (sess : Session) (fs : Fs) (w : NetWorld)
    (u : Option String)
    (h1 : ¬sess.slideDeck.getD "" = "")
    (h2 : (fs.existsFile (destOf sess) && decide (fs.sizeOf (destOf sess) > 0)) = true) :
    download_sessionT sess fs w u = (.ok (("existing", 0), fs), false) := by
  simp only [download_sessionT]
  rw [if_neg h1, if_pos h2]

/-- Every normal return of `download_session` carries one of the four
dictionary statuses. -/
theorem download_session_status (sess : Session) (fs : Fs) (w : NetWorld)
    (u : Option String) (out : (String × Nat) × Fs)
    (h : download_session sess fs w u = .ok out) :
    out.1.1 = "downloaded" ∨ out.1.1 = "no_deck" ∨ out.1.1 = "existing"
      ∨ out.1.1 = "failed" := by
  by_cases h1 : sess.slideDeck.getD "" = ""
  · rw [download_session, dsT_no_url sess fs w u h1] at h
    cases h
    simp
  · by_cases h2 : (fs.existsFile (destOf sess) &&
        decide (fs.sizeOf (destOf sess) > 0)) = true
    · rw [download_session, dsT_existing sess fs w u h1 h2] at h
      cases h
      simp
    · rcases hdf : download_file w fs (sess.slideDeck.getD "") (destOf sess)
          (sanitize_filename (sess.sessionCode.getD "")) with ⟨⟨succ, res⟩, fs1⟩
      cases succ
      · by_cases hex : fs1.existsFile (destOf sess) = true
        · cases u with
          | none =>
            rw [download_session, dsT_failed_clean sess fs fs1 w res h1
              (by simpa using h2) hdf hex] at h
            cases h
            simp
          | some m =>
            rw [download_session, dsT_failed_unlink_raises sess fs fs1 w res m
              h1 (by simpa using h2) hdf hex] at h
            cases h
        · rw [download_session, dsT_failed_absent sess fs fs1 w u res h1
            (by simpa using h2) hdf (by simpa using hex)] at h
          cases h
          simp
      · rw [download_session, dsT_downloaded sess fs fs1 w u res h1
          (by simpa using h2) hdf] at h
        cases h
        simp

/-- `download_session` raises only from the cleanup `dest.unlink()`: an
`Except.error` result reproduces the unlink oracle's exception. -/
theorem download_session_error_source (sess : Session) (fs : Fs) (w : NetWorld)
    (u : Option String) (msg : String)
    (h : download_session sess fs w u = .error msg) : u = some msg := by
  by_cases h1 : sess.slideDeck.getD "" = ""
  · rw [download_session, dsT_no_url sess fs w u h1] at h
    cases h
  · by_cases h2 : (fs.existsFile (destOf sess) &&
        decide (fs.sizeOf (destOf sess) > 0)) = true
    · rw [download_session, dsT_existing sess fs w u h1 h2] at h
      cases h
    · rcases hdf : download_file w fs (sess.slideDeck.getD "") (destOf sess)
          (sanitize_filename (sess.sessionCode.getD "")) with ⟨⟨succ, res⟩, fs1⟩
      cases succ
      · by_cases hex : fs1.existsFile (destOf sess) = true
        · cases u with
          | none =>
            rw [download_session, dsT_failed_clean sess fs fs1 w res h1
              (by simpa using h2) hdf hex] at h
            cases h
          | some m =>
            rw [download_session, dsT_failed_unlink_raises sess fs fs1 w res m
              h1 (by simpa using h2) hdf hex] at h
            cases h
            rfl
        · rw [download_session, dsT_failed_absent sess fs fs1 w u res h1
            (by simpa using h2) hdf (by simpa using hex)] at h
          cases h
      · rw [download_session, dsT_downloaded sess fs fs1 w u res h1
          (by simpa using h2) hdf] at h
        cases h

/-- With a non-raising unlink, `download_session` always returns normally,
with a status among the four dictionary keys. -/
theorem download_session_none_ok (sess : Session) (fs : Fs) (w : NetWorld) :
    ∃ out, download_session sess fs w none = .ok out := by
  by_cases h1 : sess.slideDeck.getD "" = ""
  · exact ⟨_, by rw [download_session, dsT_no_url sess fs w none h1]⟩
  · by_cases h2 : (fs.existsFile (destOf sess) &&
        decide (fs.sizeOf (destOf sess) > 0)) = true
    · exact ⟨_, by rw [download_session, dsT_existing sess fs w none h1 h2]⟩
    · rcases hdf : download_file w fs (sess.slideDeck.getD "") (destOf sess)
          (sanitize_filename (sess.sessionCode.getD "")) with ⟨⟨succ, res⟩, fs1⟩
      cases succ
      · by_cases hex : fs1.existsFile (destOf sess) = true
        · exact ⟨_, by rw [download_session, dsT_failed_clean sess fs fs1 w res
            h1 (by simpa using h2) hdf hex]⟩
        · exact ⟨_, by rw [download_session, dsT_failed_absent sess fs fs1 w
            none res h1 (by simpa using h2) hdf (by simpa using hex)]⟩
      · exact ⟨_, by rw [download_session, dsT_downloaded sess fs fs1 w none
          res h1 (by simpa using h2) hdf]⟩

/-- C7 counterexample.  Deletion of the partial file is not best-effort:
`if dest.exists(): dest.unlink()` is not wrapped in any handler, so when
the unlink raises (here the fetch failed with a transport error and a
zero-byte file from a prior run sits at the destination), the exception
escalates out of `download_session` instead of being ignored and
returning the Failed outcome. -/
theorem unlink_failure_escalates :
    download_session ⟨some "http://u2", some "BRK202", some "X"⟩
        ⟨[], [("ignite_2025_slides/BRK202_X.pptx", [])]⟩
        ⟨.raise "ConnectionError", none, none, none⟩
        (some "IsADirectoryError") = .error "IsADirectoryError"
    ∧ ∀ r, download_session ⟨some "http://u2", some "BRK202", some "X"⟩
        ⟨[], [("ignite_2025_slides/BRK202_X.pptx", [])]⟩
        ⟨.raise "ConnectionError", none, none, none⟩
        (some "IsADirectoryError") ≠ .ok r := by
  refine ⟨rfl, ?_⟩
  intro r h
  rw [show download_session ⟨some "http://u2", some "BRK202", some "X"⟩
      ⟨[], [("ignite_2025_slides/BRK202_X.pptx", [])]⟩
      ⟨.raise "ConnectionError", none, none, none⟩
      (some "IsADirectoryError") = .error "IsADirectoryError" from rfl] at h
  cases h

/-- C7 (amended): when the fetch fails, `download_session` deletes any file
present at the destination and returns `("failed", 0)` — provided the
unlink raises no exception.  Deletion is not best-effort: if the unlink
raises, the exception escalates out of `download_session` instead of
being ignored. -/
theorem failed_fetch_cleanup (sess : Session) (fs fs1 : Fs) (w : NetWorld)
    (res : String)
    (h1 : ¬sess.slideDeck.getD "" = "")
    (h2 : (fs.existsFile (destOf sess) && decide (fs.sizeOf (destOf sess) > 0)) = false)
    (hdf : download_file w fs (sess.slideDeck.getD "") (destOf sess)
      (sanitize_filename (sess.sessionCode.getD "")) = ((false, res), fs1)) :
    (∃ fs2, download_session sess fs w none = .ok (("failed", 0), fs2) ∧
      fs2.lookupFile (destOf sess) = none)
    ∧ (∀ msg, fs1.existsFile (destOf sess) = true →
      download_session sess fs w (some msg) = .error msg) := by
  constructor
  · by_cases hex : fs1.existsFile (destOf sess) = true
    · refine ⟨fs1.unlink (destOf sess), ?_, lookupFile_unlink fs1 (destOf sess)⟩
      rw [download_session, dsT_failed_clean sess fs fs1 w res h1 h2 hdf hex]
    · refine ⟨fs1, ?_, ?_⟩
      · rw [download_session,
          dsT_failed_absent sess fs fs1 w none res h1 h2 hdf (by simpa using hex)]
      · rcases hl : fs1.lookupFile (destOf sess) with _ | c
        · rfl
        · exact absurd (by simp [Fs.existsFile, hl]) hex
  · intro msg hex
    rw [download_session,
      dsT_failed_unlink_raises sess fs fs1 w res msg h1 h2 hdf hex]

/-- C7 witness: a fetch that dies on a transport exception with no file at
the destination: the resolver reports `("failed", 0)` and the destination
stays absent; and with a zero-byte leftover file, a raising unlink
escalates. -/
theorem failed_fetch_cleanup_witness :
    (∃ fs2, download_session ⟨some "u", some "A", some "B"⟩ ⟨[], []⟩
        ⟨.raise "boom", none, none, none⟩ none = .ok (("failed", 0), fs2) ∧
      fs2.lookupFile (destOf ⟨some "u", some "A", some "B"⟩) = none)
    ∧ download_session ⟨some "u", some "A", some "B"⟩
        ⟨[], [("ignite_2025_slides/A_B.pptx", [])]⟩
        ⟨.raise "boom", none, none, none⟩ (some "EPERM") = .error "EPERM" := by
  constructor
  · exact (failed_fetch_cleanup ⟨some "u", some "A", some "B"⟩ ⟨[], []⟩ ⟨[], []⟩
      ⟨.raise "boom", none, none, none⟩ "boom" (by decide) (by decide) rfl).1
  · exact (failed_fetch_cleanup ⟨some "u", some "A", some "B"⟩
      ⟨[], [("ignite_2025_slides/A_B.pptx", [])]⟩
      ⟨[], [("ignite_2025_slides/A_B.pptx", [])]⟩
      ⟨.raise "boom", none, none, none⟩ "boom" (by decide) (by decide) rfl).2
      "EPERM" (by decide)

/-- C2 counterexample.  Not every per-item error is caught at the resolver
boundary: an exception from the cleanup `dest.unlink()` (after a failed
fetch onto a zero-byte leftover file) propagates out of
`download_session`, and `future.result()` re-raises it in the
dispatcher's collection loop, aborting the run before the remaining
results are counted. -/
theorem resolver_exception_aborts_run :
    download_session ⟨some "http://u", some "BRK101", some "T"⟩
        ⟨[], [("ignite_2025_slides/BRK101_T.pptx", [])]⟩
        ⟨.raise "ReadTimeout", none, none, none⟩
        (some "PermissionError: 13") = .error "PermissionError: 13"
    ∧ resultLoop
        [(download_session ⟨some "http://u", some "BRK101", some "T"⟩
            ⟨[], [("ignite_2025_slides/BRK101_T.pptx", [])]⟩
            ⟨.raise "ReadTimeout", none, none, none⟩
            (some "PermissionError: 13")).map Prod.fst,
          Except.ok ("no_deck", 0)]
        Counters.zero 2 = .error "PermissionError: 13" :=
  ⟨rfl, rfl⟩

/-- C2 (amended): errors arising inside the fetch are caught in
`download_file` and become the `failed` outcome, and with a non-raising
unlink `download_session` always returns one of the four outcomes; but
the cleanup unlink is the one uncaught operation — an `Except.error`
from `download_session` always carries the unlink oracle's exception,
and such an error aborts the dispatcher's collection loop as soon as it
is consumed. -/
theorem per_item_error_policy :
    (∀ (sess : Session) (fs : Fs) (w : NetWorld),
      ∃ out, download_session sess fs w none = .ok out ∧
        (out.1.1 = "downloaded" ∨ out.1.1 = "no_deck" ∨ out.1.1 = "existing"
          ∨ out.1.1 = "failed"))
    ∧ (∀ (sess : Session) (fs : Fs) (w : NetWorld) (u : Option String)
        (msg : String),
      download_session sess fs w u = .error msg → u = some msg)
    ∧ (∀ (msg : String) (rest : List (Except String (String × Nat)))
        (c : Counters) (total : Nat),
      resultLoop (.error msg :: rest) c total = .error msg) := by
  refine ⟨?_, ?_, ?_⟩
  · intro sess fs w
    obtain ⟨out, hout⟩ := download_session_none_ok sess fs w
    exact ⟨out, hout, download_session_status sess fs w none out hout⟩
  · exact download_session_error_source
  · intro msg rest c total
    rfl

/-- C2 witness: the error-source clause instantiated on a run whose unlink
oracle raises, and the totality clause on a no-deck session. -/
theorem per_item_error_policy_witness :
    (some "EACCES" : Option String) = some "EACCES"
    ∧ ∃ out, download_session ⟨none, none, none⟩ ⟨[], []⟩
        ⟨.raise "x", none, none, none⟩ none = .ok out ∧
        (out.1.1 = "downloaded" ∨ out.1.1 = "no_deck" ∨ out.1.1 = "existing"
          ∨ out.1.1 = "failed") :=
  ⟨per_item_error_policy.2.1 ⟨some "http://u", some "BRK101", some "T"⟩
      ⟨[], [("ignite_2025_slides/BRK101_T.pptx", [])]⟩
      ⟨.raise "ReadTimeout", none, none, none⟩ (some "EACCES") "EACCES" rfl,
    per_item_error_policy.1 ⟨none, none, none⟩ ⟨[], []⟩
      ⟨.raise "x", none, none, none⟩⟩

/-- Incrementing a valid status key succeeds and raises the grand total by
exactly one. -/
theorem incr_of_valid (c : Counters) (status : String)
    (h : status = "downloaded" ∨ status = "no_deck" ∨ status = "existing"
      ∨ status = "failed") :
    ∃ c1, c.incr status = some c1 ∧ c1.total = c.total + 1 := by
  rcases h with rfl | rfl | rfl | rfl
  · refine ⟨_, rfl, ?_⟩
    simp only [Counters.total]
    omega
  · refine ⟨_, rfl, ?_⟩
    simp only [Counters.total]
    omega
  · refine ⟨_, rfl, ?_⟩
    simp only [Counters.total]
    omega
  · refine ⟨_, rfl, ?_⟩
    simp only [Counters.total]
    omega

/-- The dispatcher loop over normally-completed results with valid statuses
never raises, counts every item exactly once, and emits exactly the
expected progress trace. -/
theorem resultLoop_ok_of_valid (rs : List (String × Nat)) (c : Counters)
    (total : Nat)
    (h : ∀ r ∈ rs, r.1 = "downloaded" ∨ r.1 = "no_deck" ∨ r.1 = "existing"
      ∨ r.1 = "failed") :
    ∃ cf tr, resultLoop (rs.map Except.ok) c total = .ok (cf, tr) ∧
      cf.total = c.total + rs.length ∧ tr = expectedTrace rs c.total total := by
  induction rs generalizing c with
  | nil => exact ⟨c, [], rfl, by simp, rfl⟩
  | cons hd tl ih =>
    obtain ⟨st, cnt⟩ := hd
    obtain ⟨c1, hc1, htot⟩ := incr_of_valid c st (h (st, cnt) (by simp))
    obtain ⟨cf, tr, hloop, hcf, htr⟩ := ih c1 (fun r hr => h r (by simp [hr]))
    refine ⟨cf, (if st = "downloaded" then [(c1.total, total)] else []) ++ tr,
      ?_, ?_, ?_⟩
    · simp only [List.map_cons, resultLoop, hc1, hloop]
    · rw [hcf, htot, List.length_cons]
      omega
    · simp only [expectedTrace, htr, htot]

/-- `expectedTrace` emits exactly one pair per `"downloaded"` result. -/
theorem expectedTrace_length (rs : List (String × Nat)) (k total : Nat) :
    (expectedTrace rs k total).length =
      (rs.filter (fun r => r.1 == "downloaded")).length := by
  induction rs generalizing k with
  | nil => rfl
  | cons hd tl ih =>
    obtain ⟨st, cnt⟩ := hd
    by_cases hst : st = "downloaded"
    · simp [expectedTrace, List.filter_cons, hst, ih]
    · simp [expectedTrace, List.filter_cons, hst, ih]

/-- Every pair `expectedTrace` emits shows the run's total item count as its
second component. -/
theorem expectedTrace_snd (rs : List (String × Nat)) (k total : Nat) :
    ∀ pr ∈ expectedTrace rs k total, pr.2 = total := by
  induction rs generalizing k with
  | nil => intro pr hpr; cases hpr
  | cons hd tl ih =>
    obtain ⟨st, cnt⟩ := hd
    intro pr hpr
    by_cases hst : st = "downloaded"
    · simp only [expectedTrace, hst, if_pos, List.singleton_append,
        List.mem_cons] at hpr
      rcases hpr with rfl | hpr
      · rfl
      · exact ih (k + 1) pr hpr
    · simp only [expectedTrace, hst, if_neg, List.nil_append,
        Bool.false_eq_true] at hpr
      exact ih (k + 1) pr hpr

/-- C3: the run counters balance.  For any completion order of results that
`download_session` returned normally, the dispatcher loop succeeds and
the four counters sum to exactly the number of items processed: each item
increments exactly one counter exactly once. -/
theorem run_counters_balance (rs : List (String × Nat)) (total : Nat)
    (h : ∀ r ∈ rs, ∃ sess fs w u fs2,
      download_session sess fs w u = .ok (r, fs2)) :
    ∃ c tr, resultLoop (rs.map Except.ok) Counters.zero total = .ok (c, tr) ∧
      c.downloaded + c.no_deck + c.existing + c.failed = rs.length := by
  have hv : ∀ r ∈ rs, r.1 = "downloaded" ∨ r.1 = "no_deck" ∨ r.1 = "existing"
      ∨ r.1 = "failed" := by
    intro r hr
    obtain ⟨sess, fs, w, u, fs2, he⟩ := h r hr
    exact download_session_status sess fs w u (r, fs2) he
  obtain ⟨cf, tr, hl, hcf, _⟩ := resultLoop_ok_of_valid rs Counters.zero total hv
  refine ⟨cf, tr, hl, ?_⟩
  have : cf.total = rs.length := by
    rw [hcf]
    simp [Counters.zero, Counters.total]
  simpa [Counters.total] using this

/-- C3 witness: a two-item completion order (a failure then a skip) balances
to 2. -/
theorem run_counters_balance_witness :
    ∃ c tr, resultLoop ([("failed", 0), ("no_deck", 0)].map Except.ok)
        Counters.zero 2 = .ok (c, tr) ∧
      c.downloaded + c.no_deck + c.existing + c.failed = 2 := by
  refine run_counters_balance [("failed", 0), ("no_deck", 0)] 2 ?_
  intro r hr
  simp only [List.mem_cons, List.not_mem_nil, or_false] at hr
  rcases hr with rfl | rfl
  · exact ⟨⟨some "u", some "A", some "B"⟩, ⟨[], []⟩,
      ⟨.raise "boom", none, none, none⟩, none, ⟨[], []⟩, rfl⟩
  · exact ⟨⟨none, none, none⟩, ⟨[], []⟩, ⟨.raise "x", none, none, none⟩,
      none, ⟨[], []⟩, rfl⟩

/-- C8: the progress notices of the dispatcher.  For any completion order of
normally-returned results, the emitted trace is exactly `expectedTrace`:
one notice per `"downloaded"` outcome and none for any other outcome, and
the notice for the item at 0-based completion position `i` reads
`(i + 1, total)` — the processed count `i + 1` counts items of every
outcome kind completed so far, and `total` is the catalogue size. -/
theorem progress_notices (rs : List (String × Nat)) (total : Nat)
    (h : ∀ r ∈ rs, ∃ sess fs w u fs2,
      download_session sess fs w u = .ok (r, fs2)) :
    ∃ c tr, resultLoop (rs.map Except.ok) Counters.zero total = .ok (c, tr) ∧
      tr = expectedTrace rs 0 total ∧
      tr.length = (rs.filter (fun r => r.1 == "downloaded")).length ∧
      ∀ pr ∈ tr, pr.2 = total := by
  have hv : ∀ r ∈ rs, r.1 = "downloaded" ∨ r.1 = "no_deck" ∨ r.1 = "existing"
      ∨ r.1 = "failed" := by
    intro r hr
    obtain ⟨sess, fs, w, u, fs2, he⟩ := h r hr
    exact download_session_status sess fs w u (r, fs2) he
  obtain ⟨cf, tr, hl, _, htr⟩ := resultLoop_ok_of_valid rs Counters.zero total hv
  have hz : Counters.zero.total = 0 := rfl
  rw [hz] at htr
  refine ⟨cf, tr, hl, htr, ?_, ?_⟩
  · rw [htr, expectedTrace_length]
  · rw [htr]
    exact expectedTrace_snd rs 0 total

/-- C8 witness: a failure completing before a download — the download's
notice reads 2/2, counting the failed item in the processed count. -/
theorem progress_notices_witness :
    ∃ c tr, resultLoop ([("failed", 0), ("downloaded", 1)].map Except.ok)
        Counters.zero 2 = .ok (c, tr) ∧
      tr = expectedTrace [("failed", 0), ("downloaded", 1)] 0 2 ∧
      tr.length = ([("failed", 0), ("downloaded", 1)].filter
        (fun r => r.1 == "downloaded")).length ∧
      ∀ pr ∈ tr, pr.2 = 2 := by
  refine progress_notices [("failed", 0), ("downloaded", 1)] 2 ?_
  intro r hr
  simp only [List.mem_cons, List.not_mem_nil, or_false] at hr
  rcases hr with rfl | rfl
  · exact ⟨⟨some "u", some "A", some "B"⟩, ⟨[], []⟩,
      ⟨.raise "boom", none, none, none⟩, none, ⟨[], []⟩, rfl⟩
  · exact ⟨⟨some "u", some "A", some "B"⟩, ⟨[], []⟩,
      ⟨.resp 200 [[1]], none, none, none⟩, none,
      ⟨["ignite_2025_slides"], [("ignite_2025_slides/A_B.pptx", [1])]⟩, rfl⟩
